import Mathlib

/-!
Shallow embedding of the Luckfox LF101 MIPI-DSI panel driver
(`lf_panel_*` functions, richer revision with page-aware conflict
detection, compiled with `USE_POWER_REGULATOR 0`, `USE_ORIENTATION 0`,
`PANEL_DCS_IN_PREPARE 1`, `READ_PANEL_ID 0`).

The external world is modelled as a trace of events (command-channel
write attempts, blocking sleeps, reset-GPIO levels, conflict-warning
log lines).  The DSI command channel is a fault oracle `Bus : Nat → Int`
giving the transport return value of the n-th write attempt of the
operation being modelled; as in the kernel, a raw `mipi_dsi_dcs_write`
failed iff the value is negative, while the fixed DCS helpers
(sleep in/out, display on/off) return 0 on success and the driver
treats any nonzero value as failure.
-/

namespace LFPanel

/-- Observable effects of the driver on its collaborators. -/
inductive Event where
  /-- One command-channel transaction attempt: opcode and payload bytes. -/
  | write (cmd : Nat) (payload : List Nat)
  /-- `msleep ms`: a blocking sleep of at least `ms` milliseconds. -/
  | sleep (ms : Nat)
  /-- `gpiod_set_value(reset, level)`. -/
  | gpio (level : Nat)
  /-- The `pr_debug` conflict warning that a table entry overrides a
  caller-established register value. -/
  | warn (cmd : Nat)
  deriving Repr, DecidableEq

/-- Transport fault model: result of the n-th write attempt. -/
def Bus : Type := Nat → Int

/-- `#define JD9365_CMD_PAGE (0xE0)` -/
def JD9365_CMD_PAGE : Nat := 0xE0
/-- `#define JD9365_PAGE_USER (0x00)` -/
def JD9365_PAGE_USER : Nat := 0x00
/-- `#define JD9365_CMD_DSI_INIT0 (0x80)` -/
def JD9365_CMD_DSI_INIT0 : Nat := 0x80
/-- `#define JD9365_DSI_1_LANE (0x00)` -/
def JD9365_DSI_1_LANE : Nat := 0x00
/-- `#define JD9365_DSI_2_LANE (0x01)` -/
def JD9365_DSI_2_LANE : Nat := 0x01
/-- `#define JD9365_DSI_3_LANE (0x02)` -/
def JD9365_DSI_3_LANE : Nat := 0x02
/-- `#define JD9365_DSI_4_LANE (0x03)` -/
def JD9365_DSI_4_LANE : Nat := 0x03
/-- `#define REGFLAG_DELAY 0xFF` -/
def REGFLAG_DELAY : Nat := 0xFF

/-- `MIPI_DCS_SET_ADDRESS_MODE` from `<video/mipi_display.h>`. -/
def MIPI_DCS_SET_ADDRESS_MODE : Nat := 0x36
/-- `MIPI_DCS_SET_PIXEL_FORMAT` from `<video/mipi_display.h>`. -/
def MIPI_DCS_SET_PIXEL_FORMAT : Nat := 0x3A
/-- `MIPI_DCS_EXIT_SLEEP_MODE` from `<video/mipi_display.h>`. -/
def MIPI_DCS_EXIT_SLEEP_MODE : Nat := 0x11
/-- `MIPI_DCS_ENTER_SLEEP_MODE` from `<video/mipi_display.h>`. -/
def MIPI_DCS_ENTER_SLEEP_MODE : Nat := 0x10
/-- `MIPI_DCS_SET_DISPLAY_ON` from `<video/mipi_display.h>`. -/
def MIPI_DCS_SET_DISPLAY_ON : Nat := 0x29
/-- `MIPI_DCS_SET_DISPLAY_OFF` from `<video/mipi_display.h>`. -/
def MIPI_DCS_SET_DISPLAY_OFF : Nat := 0x28

/-- `struct LCM_init_cmd` with `MAX_CMD_DATA_LEN 1`: the `data` array has
exactly one slot, modelled as `data0`.  For a delay directive
(`cmd = REGFLAG_DELAY`) the `data_bytes` field holds the milliseconds. -/
structure LCM_init_cmd where
  cmd : Nat
  data_bytes : Nat
  data0 : Nat
  deriving Repr, DecidableEq

/-- `struct drm_display_mode`, restricted to the fields this driver sets
and reads. -/
structure drm_display_mode where
  clock : Nat
  hdisplay : Nat
  hsync_start : Nat
  hsync_end : Nat
  htotal : Nat
  vdisplay : Nat
  vsync_start : Nat
  vsync_end : Nat
  vtotal : Nat
  width_mm : Nat
  height_mm : Nat
  deriving Repr, DecidableEq

/-- `struct lf_panel_data`: the per-variant descriptor. -/
structure lf_panel_data where
  mode : drm_display_mode
  lanes : Int
  madctl_val : Nat
  colmod_val : Nat
  init_cmds : List LCM_init_cmd
  deriving Repr, DecidableEq

/-- The mutable part of `struct lf_panel`: the two lifecycle booleans. -/
structure lf_panel where
  prepared : Bool
  enabled : Bool
  deriving Repr, DecidableEq

/-- The `switch (data->lanes)` at the head of `lf_panel_set_init_cmds`:
encodes the lane count into the `JD9365_CMD_DSI_INIT0` register value,
`none` for the `default:` branch that returns -1. -/
def laneEncode : Int → Option Nat
  | 1 => some JD9365_DSI_1_LANE
  | 2 => some JD9365_DSI_2_LANE
  | 3 => some JD9365_DSI_3_LANE
  | 4 => some JD9365_DSI_4_LANE
  | _ => none

/-- The conflict `switch (init_cmd->cmd)` inside the replay loop: a table
entry's payload disagrees with the value the caller established through
the descriptor (`madctl_val`, `colmod_val`) or the encoded lane value. -/
def is_cmd_overwritten (d : lf_panel_data) (lane_command : Nat)
    (c : LCM_init_cmd) : Bool :=
  if c.cmd = MIPI_DCS_SET_ADDRESS_MODE then decide (c.data0 ≠ d.madctl_val)
  else if c.cmd = MIPI_DCS_SET_PIXEL_FORMAT then decide (c.data0 ≠ d.colmod_val)
  else if c.cmd = JD9365_CMD_DSI_INIT0 then decide (c.data0 ≠ lane_command)
  else false

/-- The replay loop of `lf_panel_set_init_cmds` over the table.
`is_user_set` is the current-page cursor (true while the last page
select wrote `JD9365_PAGE_USER`), `n` the index of the next write
attempt on the bus.  Returns the trace of events the loop produces, the
next write-attempt index, and the C return value (`.ok` for the final
`return 0`, `.error ret` for an aborting transport failure). -/
def runCmds (bus : Bus) (d : lf_panel_data) (lane_command : Nat) :
    List LCM_init_cmd → Bool → Nat → List Event × Nat × Except Int Unit
  | [], _, n => ([], n, Except.ok ())
  | c :: rest, is_user_set, n =>
    if c.cmd = REGFLAG_DELAY then
      -- msleep(init_cmd->data_bytes); continue;
      let r := runCmds bus d lane_command rest is_user_set n
      (Event.sleep c.data_bytes :: r.1, r.2)
    else if c.data_bytes = 0 then
      -- continue;
      runCmds bus d lane_command rest is_user_set n
    else
      let conflict := is_user_set && is_cmd_overwritten d lane_command c
      let wr := Event.write c.cmd (List.take c.data_bytes [c.data0])
      let pre := if conflict then [Event.warn c.cmd, wr] else [wr]
      if bus n < 0 then
        (pre, n + 1, Except.error (bus n))
      else
        let is_user_set' :=
          if c.cmd = JD9365_CMD_PAGE then decide (c.data0 = JD9365_PAGE_USER)
          else is_user_set
        let r := runCmds bus d lane_command rest is_user_set' (n + 1)
        (pre ++ r.1, r.2)

/-- `lf_panel_set_init_cmds(dsi, data)` of the richer revision: lane
encoding (failing with -1 before any bus traffic on an unsupported lane
count), the four preamble writes (page select to user page, MADCTL,
COLMOD, lane configuration), then the table replay. -/
def lf_panel_set_init_cmds (bus : Bus) (d : lf_panel_data) :
    List Event × Nat × Except Int Unit :=
  match laneEncode d.lanes with
  | none => ([], 0, Except.error (-1))
  | some lane_command =>
    let w0 := Event.write JD9365_CMD_PAGE [JD9365_PAGE_USER]
    if bus 0 < 0 then ([w0], 1, Except.error (bus 0)) else
    let w1 := Event.write MIPI_DCS_SET_ADDRESS_MODE [d.madctl_val]
    if bus 1 < 0 then ([w0, w1], 2, Except.error (bus 1)) else
    let w2 := Event.write MIPI_DCS_SET_PIXEL_FORMAT [d.colmod_val]
    if bus 2 < 0 then ([w0, w1, w2], 3, Except.error (bus 2)) else
    let w3 := Event.write JD9365_CMD_DSI_INIT0 [lane_command]
    if bus 3 < 0 then ([w0, w1, w2, w3], 4, Except.error (bus 3)) else
    let r := runCmds bus d lane_command d.init_cmds true 4
    (w0 :: w1 :: w2 :: w3 :: r.1, r.2)

/-- Number of command-channel write attempts in a trace. -/
def writeCount (t : List Event) : Nat :=
  (t.filter fun e => match e with | Event.write _ _ => true | _ => false).length

/-- Number of conflict warnings logged in a trace. -/
def warnCount (t : List Event) : Nat :=
  (t.filter fun e => match e with | Event.warn _ => true | _ => false).length

/-- Number of command-channel write attempts a fault-free replay of a
table performs (delay directives and empty-payload entries are skipped). -/
def writesOf (cmds : List LCM_init_cmd) : Nat :=
  (cmds.filter fun c => !(c.cmd = REGFLAG_DELAY) && !(c.data_bytes = 0)).length

/-- The fixed reset pulse at the head of `lf_panel_prepare`:
`gpiod_set_value(reset, 1); msleep(5); gpiod_set_value(reset, 0);
msleep(10); gpiod_set_value(reset, 1); msleep(120);`. -/
def resetPulse : List Event :=
  [Event.gpio 1, Event.sleep 5, Event.gpio 0, Event.sleep 10,
   Event.gpio 1, Event.sleep 120]

/-- `lf_panel_prepare` with `PANEL_DCS_IN_PREPARE 1` and
`USE_POWER_REGULATOR 0`: early return 0 when already prepared; reset
pulse; table replay; exit sleep mode; display on; only then
`prepared = true`.  The DCS helpers use the bus indices following the
replay's write attempts; the driver treats a nonzero helper result as
failure (`if (ret)`). -/
def lf_panel_prepare (bus : Bus) (d : lf_panel_data) (p : lf_panel) :
    List Event × lf_panel × Int :=
  if p.prepared then ([], p, 0) else
  match lf_panel_set_init_cmds bus d with
  | (t, _, Except.error e) => (resetPulse ++ t, p, e)
  | (t, n, Except.ok _) =>
    let t1 := resetPulse ++ t ++ [Event.write MIPI_DCS_EXIT_SLEEP_MODE []]
    if bus n ≠ 0 then (t1, p, bus n) else
    let t2 := t1 ++ [Event.write MIPI_DCS_SET_DISPLAY_ON []]
    if bus (n + 1) ≠ 0 then (t2, p, bus (n + 1)) else
    (t2, { p with prepared := true }, 0)

/-- `lf_panel_unprepare` with `PANEL_DCS_IN_PREPARE 1` and
`USE_POWER_REGULATOR 0`: early return 0 when not prepared; display off;
enter sleep mode; assert reset and settle; only then `prepared = false`.
Each DCS failure returns the error with the state untouched. -/
def lf_panel_unprepare (bus : Bus) (p : lf_panel) :
    List Event × lf_panel × Int :=
  if p.prepared = false then ([], p, 0) else
  let t0 := [Event.write MIPI_DCS_SET_DISPLAY_OFF []]
  if bus 0 ≠ 0 then (t0, p, bus 0) else
  let t1 := t0 ++ [Event.write MIPI_DCS_ENTER_SLEEP_MODE []]
  if bus 1 ≠ 0 then (t1, p, bus 1) else
  (t1 ++ [Event.gpio 1, Event.sleep 120], { p with prepared := false }, 0)

/-- `lf_panel_enable` with `PANEL_DCS_IN_PREPARE 1`: early return 0 when
already enabled, otherwise a pure state transition with no bus traffic. -/
def lf_panel_enable (p : lf_panel) : List Event × lf_panel × Int :=
  if p.enabled then ([], p, 0) else ([], { p with enabled := true }, 0)

/-- `lf_panel_disable` with `PANEL_DCS_IN_PREPARE 1`: early return 0 when
not enabled, otherwise a pure state transition with no bus traffic. -/
def lf_panel_disable (p : lf_panel) : List Event × lf_panel × Int :=
  if p.enabled = false then ([], p, 0) else ([], { p with enabled := false }, 0)

/-- `struct drm_connector`, restricted to what `lf_panel_get_modes`
touches: the probed-mode list and the physical-size fields of
`display_info`. -/
structure drm_connector where
  probed_modes : List drm_display_mode
  width_mm : Nat
  height_mm : Nat
  deriving Repr, DecidableEq

/-- `drm_mode_duplicate`: allocates an independent copy of the mode, or
fails (returns NULL) when allocation fails; `alloc_ok` is the allocator
oracle. -/
def drm_mode_duplicate (alloc_ok : Bool) (m : drm_display_mode) :
    Option drm_display_mode :=
  if alloc_ok then some m else none

/-- `lf_panel_get_modes` with `USE_ORIENTATION 0`.  When
`drm_mode_duplicate` succeeds the duplicated mode is named, added to the
connector's probed list, the connector's physical size is set from it
and 1 is returned; the panel state is never touched.  When it fails the
source logs `dev_err` and, lacking a return in that branch, falls
through into `drm_mode_set_name(mode)` / `drm_mode_probed_add(connector,
mode)` / `mode->width_mm` with `mode == NULL`: that NULL dereference is
modelled as `Except.error ()`. -/
def lf_panel_get_modes (alloc_ok : Bool) (d : lf_panel_data) (p : lf_panel)
    (conn : drm_connector) :
    Except Unit (lf_panel × drm_connector × Int) :=
  match drm_mode_duplicate alloc_ok d.mode with
  | none => Except.error ()
  | some mode =>
    Except.ok (p,
      { conn with probed_modes := conn.probed_modes ++ [mode],
                  width_mm := mode.width_mm,
                  height_mm := mode.height_mm },
      1)

/-- One invocation of a lifecycle operation, for reasoning about
sequences of calls. -/
inductive LifecycleOp where
  | prepare
  | enable
  | disable
  | unprepare
  deriving Repr, DecidableEq

/-- Apply one lifecycle operation (with the bus fault oracle of that
invocation) to the panel state. -/
def runOp (d : lf_panel_data) (p : lf_panel) : LifecycleOp × Bus → lf_panel
  | (LifecycleOp.prepare, bus) => (lf_panel_prepare bus d p).2.1
  | (LifecycleOp.enable, _) => (lf_panel_enable p).2.1
  | (LifecycleOp.disable, _) => (lf_panel_disable p).2.1
  | (LifecycleOp.unprepare, bus) => (lf_panel_unprepare bus p).2.1

/-- Run a sequence of lifecycle invocations from a state. -/
def runSeq (d : lf_panel_data) (p : lf_panel) :
    List (LifecycleOp × Bus) → lf_panel
  | [] => p
  | s :: rest => runSeq d (runOp d p s) rest

/-- The invocation-order contract the DRM framework guarantees (§5 of
the design): `enable` only on a prepared panel, `unprepare` only on a
disabled one.  Checked along the actual run of the sequence. -/
def legalSeq (d : lf_panel_data) (p : lf_panel) :
    List (LifecycleOp × Bus) → Bool
  | [] => true
  | (op, bus) :: rest =>
    (match op with
     | LifecycleOp.enable => p.prepared
     | LifecycleOp.unprepare => !p.enabled
     | _ => true) && legalSeq d (runOp d p (op, bus)) rest

/-- `LF101_8001280_AMA_4LANE_mode`: the 4-lane panel timing. -/
def LF101_8001280_AMA_4LANE_mode : drm_display_mode :=
  ⟨70000, 800, 800 + 40, 800 + 40 + 20, 800 + 40 + 20 + 20,
   1280, 1280 + 20, 1280 + 20 + 4, 1280 + 20 + 4 + 20, 135, 216⟩

/-- Entries 0-49 of `LF101_8001280_AMA_4LANE_init_cmds` (split only to keep list literals short). -/
def LF101_4LANE_init_cmds_part0 : List LCM_init_cmd := [
  ⟨REGFLAG_DELAY, 10, 0x00⟩,
  ⟨0xE0, 1, 0x00⟩,
  ⟨0xE1, 1, 0x93⟩,
  ⟨0xE2, 1, 0x65⟩,
  ⟨0xE3, 1, 0xF8⟩,
  ⟨0x80, 1, 0x03⟩,
  ⟨0xE0, 1, 0x01⟩,
  ⟨0x00, 1, 0x00⟩,
  ⟨0x01, 1, 0x3B⟩,
  ⟨0x0C, 1, 0x74⟩,
  ⟨0x17, 1, 0x00⟩,
  ⟨0x18, 1, 0xAF⟩,
  ⟨0x19, 1, 0x00⟩,
  ⟨0x1A, 1, 0x00⟩,
  ⟨0x1B, 1, 0xAF⟩,
  ⟨0x1C, 1, 0x00⟩,
  ⟨0x35, 1, 0x26⟩,
  ⟨0x37, 1, 0x09⟩,
  ⟨0x38, 1, 0x04⟩,
  ⟨0x39, 1, 0x00⟩,
  ⟨0x3A, 1, 0x01⟩,
  ⟨0x3C, 1, 0x78⟩,
  ⟨0x3D, 1, 0xFF⟩,
  ⟨0x3E, 1, 0xFF⟩,
  ⟨0x3F, 1, 0x7F⟩,
  ⟨0x40, 1, 0x06⟩,
  ⟨0x41, 1, 0xA0⟩,
  ⟨0x42, 1, 0x81⟩,
  ⟨0x43, 1, 0x14⟩,
  ⟨0x44, 1, 0x23⟩,
  ⟨0x45, 1, 0x28⟩,
  ⟨0x55, 1, 0x02⟩,
  ⟨0x57, 1, 0x69⟩,
  ⟨0x59, 1, 0x0A⟩,
  ⟨0x5A, 1, 0x2A⟩,
  ⟨0x5B, 1, 0x17⟩,
  ⟨0x5D, 1, 0x7F⟩,
  ⟨0x5E, 1, 0x6B⟩,
  ⟨0x5F, 1, 0x5C⟩,
  ⟨0x60, 1, 0x4F⟩,
  ⟨0x61, 1, 0x4D⟩,
  ⟨0x62, 1, 0x3F⟩,
  ⟨0x63, 1, 0x42⟩,
  ⟨0x64, 1, 0x2B⟩,
  ⟨0x65, 1, 0x44⟩,
  ⟨0x66, 1, 0x43⟩,
  ⟨0x67, 1, 0x43⟩,
  ⟨0x68, 1, 0x63⟩,
  ⟨0x69, 1, 0x52⟩,
  ⟨0x6A, 1, 0x5A⟩]

/-- Entries 50-99 of `LF101_8001280_AMA_4LANE_init_cmds` (split only to keep list literals short). -/
def LF101_4LANE_init_cmds_part1 : List LCM_init_cmd := [
  ⟨0x6B, 1, 0x4F⟩,
  ⟨0x6C, 1, 0x4E⟩,
  ⟨0x6D, 1, 0x20⟩,
  ⟨0x6E, 1, 0x0F⟩,
  ⟨0x6F, 1, 0x00⟩,
  ⟨0x70, 1, 0x7F⟩,
  ⟨0x71, 1, 0x6B⟩,
  ⟨0x72, 1, 0x5C⟩,
  ⟨0x73, 1, 0x4F⟩,
  ⟨0x74, 1, 0x4D⟩,
  ⟨0x75, 1, 0x3F⟩,
  ⟨0x76, 1, 0x42⟩,
  ⟨0x77, 1, 0x2B⟩,
  ⟨0x78, 1, 0x44⟩,
  ⟨0x79, 1, 0x43⟩,
  ⟨0x7A, 1, 0x43⟩,
  ⟨0x7B, 1, 0x63⟩,
  ⟨0x7C, 1, 0x52⟩,
  ⟨0x7D, 1, 0x5A⟩,
  ⟨0x7E, 1, 0x4F⟩,
  ⟨0x7F, 1, 0x4E⟩,
  ⟨0x80, 1, 0x20⟩,
  ⟨0x81, 1, 0x0F⟩,
  ⟨0x82, 1, 0x00⟩,
  ⟨0xE0, 1, 0x02⟩,
  ⟨0x00, 1, 0x02⟩,
  ⟨0x01, 1, 0x02⟩,
  ⟨0x02, 1, 0x00⟩,
  ⟨0x03, 1, 0x00⟩,
  ⟨0x04, 1, 0x1E⟩,
  ⟨0x05, 1, 0x1E⟩,
  ⟨0x06, 1, 0x1F⟩,
  ⟨0x07, 1, 0x1F⟩,
  ⟨0x08, 1, 0x1F⟩,
  ⟨0x09, 1, 0x17⟩,
  ⟨0x0A, 1, 0x17⟩,
  ⟨0x0B, 1, 0x37⟩,
  ⟨0x0C, 1, 0x37⟩,
  ⟨0x0D, 1, 0x47⟩,
  ⟨0x0E, 1, 0x47⟩,
  ⟨0x0F, 1, 0x45⟩,
  ⟨0x10, 1, 0x45⟩,
  ⟨0x11, 1, 0x4B⟩,
  ⟨0x12, 1, 0x4B⟩,
  ⟨0x13, 1, 0x49⟩,
  ⟨0x14, 1, 0x49⟩,
  ⟨0x15, 1, 0x1F⟩,
  ⟨0x16, 1, 0x01⟩,
  ⟨0x17, 1, 0x01⟩,
  ⟨0x18, 1, 0x00⟩]

/-- Entries 100-149 of `LF101_8001280_AMA_4LANE_init_cmds` (split only to keep list literals short). -/
def LF101_4LANE_init_cmds_part2 : List LCM_init_cmd := [
  ⟨0x19, 1, 0x00⟩,
  ⟨0x1A, 1, 0x1E⟩,
  ⟨0x1B, 1, 0x1E⟩,
  ⟨0x1C, 1, 0x1F⟩,
  ⟨0x1D, 1, 0x1F⟩,
  ⟨0x1E, 1, 0x1F⟩,
  ⟨0x1F, 1, 0x17⟩,
  ⟨0x20, 1, 0x17⟩,
  ⟨0x21, 1, 0x37⟩,
  ⟨0x22, 1, 0x37⟩,
  ⟨0x23, 1, 0x46⟩,
  ⟨0x24, 1, 0x46⟩,
  ⟨0x25, 1, 0x44⟩,
  ⟨0x26, 1, 0x44⟩,
  ⟨0x27, 1, 0x4A⟩,
  ⟨0x28, 1, 0x4A⟩,
  ⟨0x29, 1, 0x48⟩,
  ⟨0x2A, 1, 0x48⟩,
  ⟨0x2B, 1, 0x1F⟩,
  ⟨0x2C, 1, 0x01⟩,
  ⟨0x2D, 1, 0x01⟩,
  ⟨0x2E, 1, 0x00⟩,
  ⟨0x2F, 1, 0x00⟩,
  ⟨0x30, 1, 0x1F⟩,
  ⟨0x31, 1, 0x1F⟩,
  ⟨0x32, 1, 0x1E⟩,
  ⟨0x33, 1, 0x1E⟩,
  ⟨0x34, 1, 0x1F⟩,
  ⟨0x35, 1, 0x17⟩,
  ⟨0x36, 1, 0x17⟩,
  ⟨0x37, 1, 0x37⟩,
  ⟨0x38, 1, 0x37⟩,
  ⟨0x39, 1, 0x08⟩,
  ⟨0x3A, 1, 0x08⟩,
  ⟨0x3B, 1, 0x0A⟩,
  ⟨0x3C, 1, 0x0A⟩,
  ⟨0x3D, 1, 0x04⟩,
  ⟨0x3E, 1, 0x04⟩,
  ⟨0x3F, 1, 0x06⟩,
  ⟨0x40, 1, 0x06⟩,
  ⟨0x41, 1, 0x1F⟩,
  ⟨0x42, 1, 0x02⟩,
  ⟨0x43, 1, 0x02⟩,
  ⟨0x44, 1, 0x00⟩,
  ⟨0x45, 1, 0x00⟩,
  ⟨0x46, 1, 0x1F⟩,
  ⟨0x47, 1, 0x1F⟩,
  ⟨0x48, 1, 0x1E⟩,
  ⟨0x49, 1, 0x1E⟩,
  ⟨0x4A, 1, 0x1F⟩]

/-- Entries 150-196 of `LF101_8001280_AMA_4LANE_init_cmds` (split only to keep list literals short). -/
def LF101_4LANE_init_cmds_part3 : List LCM_init_cmd := [
  ⟨0x4B, 1, 0x17⟩,
  ⟨0x4C, 1, 0x17⟩,
  ⟨0x4D, 1, 0x37⟩,
  ⟨0x4E, 1, 0x37⟩,
  ⟨0x4F, 1, 0x09⟩,
  ⟨0x50, 1, 0x09⟩,
  ⟨0x51, 1, 0x0B⟩,
  ⟨0x52, 1, 0x0B⟩,
  ⟨0x53, 1, 0x05⟩,
  ⟨0x54, 1, 0x05⟩,
  ⟨0x55, 1, 0x07⟩,
  ⟨0x56, 1, 0x07⟩,
  ⟨0x57, 1, 0x1F⟩,
  ⟨0x58, 1, 0x40⟩,
  ⟨0x5B, 1, 0x30⟩,
  ⟨0x5C, 1, 0x16⟩,
  ⟨0x5D, 1, 0x34⟩,
  ⟨0x5E, 1, 0x05⟩,
  ⟨0x5F, 1, 0x02⟩,
  ⟨0x63, 1, 0x00⟩,
  ⟨0x64, 1, 0x6A⟩,
  ⟨0x67, 1, 0x73⟩,
  ⟨0x68, 1, 0x1D⟩,
  ⟨0x69, 1, 0x08⟩,
  ⟨0x6A, 1, 0x6A⟩,
  ⟨0x6B, 1, 0x08⟩,
  ⟨0x6C, 1, 0x00⟩,
  ⟨0x6D, 1, 0x00⟩,
  ⟨0x6E, 1, 0x00⟩,
  ⟨0x6F, 1, 0x88⟩,
  ⟨0x75, 1, 0xFF⟩,
  ⟨0x77, 1, 0xDD⟩,
  ⟨0x78, 1, 0x3F⟩,
  ⟨0x79, 1, 0x15⟩,
  ⟨0x7A, 1, 0x17⟩,
  ⟨0x7D, 1, 0x14⟩,
  ⟨0x7E, 1, 0x82⟩,
  ⟨0xE0, 1, 0x04⟩,
  ⟨0x00, 1, 0x0E⟩,
  ⟨0x02, 1, 0xB3⟩,
  ⟨0x09, 1, 0x61⟩,
  ⟨0x0E, 1, 0x48⟩,
  ⟨0xE0, 1, 0x00⟩,
  ⟨0xE6, 1, 0x02⟩,
  ⟨0xE7, 1, 0x0C⟩,
  ⟨0x11, 1, 0x00⟩,
  ⟨REGFLAG_DELAY, 120, 0x00⟩]

/-- `LF101_8001280_AMA_4LANE_init_cmds`: the vendor initialization table
of the 4-lane variant, transcribed entry for entry. -/
def LF101_8001280_AMA_4LANE_init_cmds : List LCM_init_cmd :=
  LF101_4LANE_init_cmds_part0 ++ LF101_4LANE_init_cmds_part1 ++ LF101_4LANE_init_cmds_part2 ++ LF101_4LANE_init_cmds_part3

/-- `LF101_8001280_AMA_4LANE_data`: the descriptor the `of_device_id`
table binds to `luckfox,lf101-8001280-ama`. -/
def LF101_8001280_AMA_4LANE_data : lf_panel_data :=
  ⟨LF101_8001280_AMA_4LANE_mode, 4, 0x00, 0x77,
   LF101_8001280_AMA_4LANE_init_cmds⟩

/-- A fault-free transport: every write attempt succeeds with 0. -/
def zeroBus : Bus := fun _ => 0

/-- A transport that fails with -5 (`-EIO`) exactly on write attempt
`k` (0-based) and succeeds otherwise. -/
def failBus (k : Nat) : Bus := fun n => if n = k then -5 else 0

/-- The table of the end-to-end scenario of §8 of the design: a page
select to the user page, an address-mode write matching MADCTL 0x00, a
pixel-format write matching COLMOD 0x77, then three arbitrary register
writes. -/
def scenarioTable (w1 w2 w3 : LCM_init_cmd) : List LCM_init_cmd :=
  [⟨0xE0, 1, 0x00⟩, ⟨0x36, 1, 0x00⟩, ⟨0x3A, 1, 0x77⟩, w1, w2, w3]

/-- The descriptor of that scenario: 4 lanes, MADCTL 0x00, COLMOD 0x77. -/
def scenarioData (w1 w2 w3 : LCM_init_cmd) : lf_panel_data :=
  ⟨LF101_8001280_AMA_4LANE_mode, 4, 0x00, 0x77, scenarioTable w1 w2 w3⟩

/-! ## General lemmas about traces and the interpreter -/

theorem writeCount_append (a b : List Event) :
    writeCount (a ++ b) = writeCount a + writeCount b := by
  simp [writeCount, List.filter_append]

theorem warnCount_append (a b : List Event) :
    warnCount (a ++ b) = warnCount a + warnCount b := by
  simp [warnCount, List.filter_append]

theorem laneEncode_eq_none (l : Int)
    (h1 : l ≠ 1) (h2 : l ≠ 2) (h3 : l ≠ 3) (h4 : l ≠ 4) :
    laneEncode l = none := by
  unfold laneEncode
  split <;> simp_all

theorem is_cmd_overwritten_iff (d : lf_panel_data) (lc : Nat)
    (c : LCM_init_cmd) :
    is_cmd_overwritten d lc c = true ↔
      ((c.cmd = MIPI_DCS_SET_ADDRESS_MODE ∧ c.data0 ≠ d.madctl_val) ∨
       (c.cmd = MIPI_DCS_SET_PIXEL_FORMAT ∧ c.data0 ≠ d.colmod_val) ∨
       (c.cmd = JD9365_CMD_DSI_INIT0 ∧ c.data0 ≠ lc)) := by
  unfold is_cmd_overwritten
  split_ifs with h1 h2 h3 <;>
    simp_all [MIPI_DCS_SET_ADDRESS_MODE, MIPI_DCS_SET_PIXEL_FORMAT,
      JD9365_CMD_DSI_INIT0]

/-! ## C1: the preamble and the lane gate -/

/-- Claim C1.  For every descriptor with lane count in 1..4 (paired here
with its claimed encoding 1 → 0x00, 2 → 0x01, 3 → 0x02, 4 → 0x03, the
first four transport results being non-negative), the interpreter's
trace is exactly the four preamble writes — page select to `USER_PAGE`,
address mode ← `madctl_val`, pixel format ← `colmod_val`, register 0x80
← encoded lane value — followed by the table replay.  For any other
lane count it returns -1 with an empty trace: no bus write at all. -/
theorem C1_preamble_and_lane_gate :
    (∀ (bus : Bus) (d : lf_panel_data) (l : Int) (v : Nat),
      (l, v) ∈ ([(1, 0x00), (2, 0x01), (3, 0x02), (4, 0x03)] :
        List (Int × Nat)) →
      d.lanes = l →
      (∀ i, i < 4 → 0 ≤ bus i) →
      lf_panel_set_init_cmds bus d =
        (Event.write JD9365_CMD_PAGE [JD9365_PAGE_USER] ::
         Event.write MIPI_DCS_SET_ADDRESS_MODE [d.madctl_val] ::
         Event.write MIPI_DCS_SET_PIXEL_FORMAT [d.colmod_val] ::
         Event.write JD9365_CMD_DSI_INIT0 [v] ::
         (runCmds bus d v d.init_cmds true 4).1,
         (runCmds bus d v d.init_cmds true 4).2)) ∧
    (∀ (bus : Bus) (d : lf_panel_data),
      d.lanes ≠ 1 → d.lanes ≠ 2 → d.lanes ≠ 3 → d.lanes ≠ 4 →
      lf_panel_set_init_cmds bus d = ([], 0, Except.error (-1))) := by
  constructor
  · intro bus d l v hmem hl hbus
    have h0 : ¬ bus 0 < 0 := not_lt.mpr (hbus 0 (by norm_num))
    have h1 : ¬ bus 1 < 0 := not_lt.mpr (hbus 1 (by norm_num))
    have h2 : ¬ bus 2 < 0 := not_lt.mpr (hbus 2 (by norm_num))
    have h3 : ¬ bus 3 < 0 := not_lt.mpr (hbus 3 (by norm_num))
    simp only [List.mem_cons, List.mem_singleton, Prod.mk.injEq] at hmem
    rcases hmem with ⟨rfl, rfl⟩ | ⟨rfl, rfl⟩ | ⟨rfl, rfl⟩ | ⟨rfl, rfl⟩ | h <;>
      first
      | exact absurd h (List.not_mem_nil _)
      | simp [lf_panel_set_init_cmds, laneEncode, hl, h0, h1, h2, h3,
          JD9365_DSI_1_LANE, JD9365_DSI_2_LANE, JD9365_DSI_3_LANE,
          JD9365_DSI_4_LANE]
  · intro bus d g1 g2 g3 g4
    simp [lf_panel_set_init_cmds, laneEncode_eq_none d.lanes g1 g2 g3 g4]

/-- Witness for C1 at concrete inputs: a 1-lane descriptor with an empty
table gets exactly the four preamble writes, and a 5-lane descriptor
fails with -1 before any bus traffic. -/
theorem C1_witness :
    lf_panel_set_init_cmds zeroBus
        ⟨LF101_8001280_AMA_4LANE_mode, 1, 0x0A, 0x55, []⟩ =
      ([Event.write JD9365_CMD_PAGE [JD9365_PAGE_USER],
        Event.write MIPI_DCS_SET_ADDRESS_MODE [0x0A],
        Event.write MIPI_DCS_SET_PIXEL_FORMAT [0x55],
        Event.write JD9365_CMD_DSI_INIT0 [0x00]], 4, Except.ok ()) ∧
    lf_panel_set_init_cmds zeroBus
        ⟨LF101_8001280_AMA_4LANE_mode, 5, 0x00, 0x77, []⟩ =
      ([], 0, Except.error (-1)) := by
  constructor
  · have h := C1_preamble_and_lane_gate.1 zeroBus
      ⟨LF101_8001280_AMA_4LANE_mode, 1, 0x0A, 0x55, []⟩ 1 0x00
      (by simp) rfl (fun i _ => by simp [zeroBus])
    simpa [runCmds] using h
  · exact C1_preamble_and_lane_gate.2 zeroBus
      ⟨LF101_8001280_AMA_4LANE_mode, 5, 0x00, 0x77, []⟩
      (by decide) (by decide) (by decide) (by decide)

/-! ## C2: page-aware conflict detection, last write wins -/

/-- Claim C2.  During replay, while the page cursor `is_user_set` is
true (it starts true and, in `runCmds`, is updated after each write of
register 0xE0 to whether the payload equals 0x00), an entry targeting
the address-mode, pixel-format or lane-configuration register with a
payload differing from `madctl_val`, `colmod_val` resp. the encoded
lane value produces a conflict warning immediately followed by the
write of the table's value; with the cursor on a non-user page, or
with a matching payload, the entry is written with no warning. -/
theorem runCmds_cons (bus : Bus) (d : lf_panel_data) (lc : Nat)
    (c : LCM_init_cmd) (rest : List LCM_init_cmd) (u : Bool) (n : Nat) :
    runCmds bus d lc (c :: rest) u n =
      if c.cmd = REGFLAG_DELAY then
        (Event.sleep c.data_bytes :: (runCmds bus d lc rest u n).1,
         (runCmds bus d lc rest u n).2)
      else if c.data_bytes = 0 then runCmds bus d lc rest u n
      else
        let pre := if u && is_cmd_overwritten d lc c then
            [Event.warn c.cmd,
             Event.write c.cmd (List.take c.data_bytes [c.data0])]
          else [Event.write c.cmd (List.take c.data_bytes [c.data0])]
        if bus n < 0 then (pre, n + 1, Except.error (bus n))
        else
          (pre ++ (runCmds bus d lc rest
              (if c.cmd = JD9365_CMD_PAGE then
                decide (c.data0 = JD9365_PAGE_USER) else u) (n + 1)).1,
           (runCmds bus d lc rest
              (if c.cmd = JD9365_CMD_PAGE then
                decide (c.data0 = JD9365_PAGE_USER) else u) (n + 1)).2) :=
  rfl

theorem C2_conflict_detection (bus : Bus) (d : lf_panel_data) (lc : Nat)
    (c : LCM_init_cmd) (rest : List LCM_init_cmd) (u : Bool) (n : Nat)
    (hnd : c.cmd ≠ REGFLAG_DELAY) (hdb : c.data_bytes ≠ 0) :
    ((u = true ∧
        ((c.cmd = MIPI_DCS_SET_ADDRESS_MODE ∧ c.data0 ≠ d.madctl_val) ∨
         (c.cmd = MIPI_DCS_SET_PIXEL_FORMAT ∧ c.data0 ≠ d.colmod_val) ∨
         (c.cmd = JD9365_CMD_DSI_INIT0 ∧ c.data0 ≠ lc))) →
      ∃ t, (runCmds bus d lc (c :: rest) u n).1 =
        Event.warn c.cmd ::
        Event.write c.cmd (List.take c.data_bytes [c.data0]) :: t) ∧
    (¬(u = true ∧
        ((c.cmd = MIPI_DCS_SET_ADDRESS_MODE ∧ c.data0 ≠ d.madctl_val) ∨
         (c.cmd = MIPI_DCS_SET_PIXEL_FORMAT ∧ c.data0 ≠ d.colmod_val) ∨
         (c.cmd = JD9365_CMD_DSI_INIT0 ∧ c.data0 ≠ lc))) →
      ∃ t, (runCmds bus d lc (c :: rest) u n).1 =
        Event.write c.cmd (List.take c.data_bytes [c.data0]) :: t) := by
  constructor
  · rintro ⟨rfl, hc⟩
    have hov : (true && is_cmd_overwritten d lc c) = true := by
      simp [(is_cmd_overwritten_iff d lc c).2 hc]
    rw [runCmds_cons bus d lc c rest true n]
    by_cases hb : bus n < 0
    · exact ⟨[], by simp [hnd, hdb, hov, hb]⟩
    · exact ⟨(runCmds bus d lc rest
          (if c.cmd = JD9365_CMD_PAGE then
            decide (c.data0 = JD9365_PAGE_USER) else true) (n + 1)).1,
        by simp [hnd, hdb, hov, hb]⟩
  · intro hnc
    have hov : (u && is_cmd_overwritten d lc c) = false := by
      cases u with
      | false => simp
      | true =>
        simp only [Bool.true_and]
        by_contra hcon
        rw [Bool.not_eq_false] at hcon
        exact hnc ⟨rfl, (is_cmd_overwritten_iff d lc c).1 hcon⟩
    rw [runCmds_cons bus d lc c rest u n]
    by_cases hb : bus n < 0
    · exact ⟨[], by simp [hnd, hdb, hov, hb]⟩
    · exact ⟨(runCmds bus d lc rest
          (if c.cmd = JD9365_CMD_PAGE then
            decide (c.data0 = JD9365_PAGE_USER) else u) (n + 1)).1,
        by simp [hnd, hdb, hov, hb]⟩

/-- Witness for C2: a table entry writing 0x05 to the address-mode
register while the descriptor establishes MADCTL 0x00 on the user page
is warned about and still written; the same entry on a non-user page is
written silently. -/
theorem C2_witness :
    (∃ t, (runCmds zeroBus ⟨LF101_8001280_AMA_4LANE_mode, 4, 0x00, 0x77, []⟩
        0x03 [⟨0x36, 1, 0x05⟩] true 4).1 =
      Event.warn 0x36 :: Event.write 0x36 [0x05] :: t) ∧
    (∃ t, (runCmds zeroBus ⟨LF101_8001280_AMA_4LANE_mode, 4, 0x00, 0x77, []⟩
        0x03 [⟨0x36, 1, 0x05⟩] false 4).1 =
      Event.write 0x36 [0x05] :: t) := by
  constructor
  · have h := (C2_conflict_detection zeroBus
      ⟨LF101_8001280_AMA_4LANE_mode, 4, 0x00, 0x77, []⟩ 0x03
      ⟨0x36, 1, 0x05⟩ [] true 4 (by decide) (by decide)).1
      ⟨rfl, Or.inl ⟨by simp [MIPI_DCS_SET_ADDRESS_MODE], by decide⟩⟩
    simpa using h
  · have h := (C2_conflict_detection zeroBus
      ⟨LF101_8001280_AMA_4LANE_mode, 4, 0x00, 0x77, []⟩ 0x03
      ⟨0x36, 1, 0x05⟩ [] false 4 (by decide) (by decide)).2
      (by simp)
    simpa using h

/-! ## C8: delay directives -/

/-- Claim C8.  A table entry whose command byte is `REGFLAG_DELAY`
(0xFF) makes the interpreter block (`msleep`, which sleeps at least its
argument in milliseconds) for the directive's value before any effect
of the following entries, contributes no bus transaction itself, and
does not consume a write attempt. -/
theorem C8_delay_directive (bus : Bus) (d : lf_panel_data) (lc : Nat)
    (c : LCM_init_cmd) (rest : List LCM_init_cmd) (u : Bool) (n : Nat)
    (h : c.cmd = REGFLAG_DELAY) :
    runCmds bus d lc (c :: rest) u n =
      (Event.sleep c.data_bytes :: (runCmds bus d lc rest u n).1,
       (runCmds bus d lc rest u n).2) := by
  simp [runCmds, h]

/-- Witness for C8: the first entry of the shipped 4-lane table is a
10 ms delay directive, and replaying that one-entry table sleeps 10 ms
and writes nothing. -/
theorem C8_witness :
    runCmds zeroBus LF101_8001280_AMA_4LANE_data 0x03
        [⟨REGFLAG_DELAY, 10, 0x00⟩] true 4 =
      ([Event.sleep 10], 4, Except.ok ()) := by
  rw [C8_delay_directive zeroBus LF101_8001280_AMA_4LANE_data 0x03
    ⟨REGFLAG_DELAY, 10, 0x00⟩ [] true 4 rfl]
  simp [runCmds]

/-! ## C3: transport failure aborts the replay -/

theorem writeCount_cons_write (cmd : Nat) (p : List Nat) (t : List Event) :
    writeCount (Event.write cmd p :: t) = writeCount t + 1 := by
  simp [writeCount]

theorem writeCount_cons_sleep (ms : Nat) (t : List Event) :
    writeCount (Event.sleep ms :: t) = writeCount t := by
  simp [writeCount]

theorem writeCount_cons_warn (cmd : Nat) (t : List Event) :
    writeCount (Event.warn cmd :: t) = writeCount t := by
  simp [writeCount]

/-- If the transport fails for the first time on the write attempt with
0-based index `n + k` and the fault-free replay of `cmds` would attempt
at least `k + 1` writes, then the loop stops right at that attempt: the
produced trace ends with the failing write, contains exactly `k + 1`
write attempts, and the transport's error code is returned unchanged. -/
theorem runCmds_fail (bus : Bus) (d : lf_panel_data) (lc : Nat) :
    ∀ (cmds : List LCM_init_cmd) (u : Bool) (n k : Nat),
      k + 1 ≤ writesOf cmds →
      (∀ i, n ≤ i → i < n + k → 0 ≤ bus i) →
      bus (n + k) < 0 →
      ∃ t₀ cw pw,
        runCmds bus d lc cmds u n =
          (t₀ ++ [Event.write cw pw], n + k + 1, Except.error (bus (n + k))) ∧
        writeCount (t₀ ++ [Event.write cw pw]) = k + 1 := by
  intro cmds
  induction cmds with
  | nil => intro u n k hk _ _; simp [writesOf] at hk
  | cons c rest ih =>
    intro u n k hk hok hfail
    by_cases hnd : c.cmd = REGFLAG_DELAY
    · have hk' : k + 1 ≤ writesOf rest := by
        simpa [writesOf, hnd] using hk
      obtain ⟨t₀, cw, pw, heq, hcnt⟩ := ih u n k hk' hok hfail
      refine ⟨Event.sleep c.data_bytes :: t₀, cw, pw, ?_, ?_⟩
      · rw [runCmds_cons]
        simp [hnd, heq]
      · rw [List.cons_append, writeCount_cons_sleep]
        exact hcnt
    · by_cases hdb : c.data_bytes = 0
      · have hk' : k + 1 ≤ writesOf rest := by
          simpa [writesOf, hnd, hdb] using hk
        obtain ⟨t₀, cw, pw, heq, hcnt⟩ := ih u n k hk' hok hfail
        refine ⟨t₀, cw, pw, ?_, hcnt⟩
        rw [runCmds_cons]
        simp [hnd, hdb, heq]
      · cases k with
        | zero =>
          have hb : bus n < 0 := by simpa using hfail
          by_cases hc : (u && is_cmd_overwritten d lc c) = true
          · refine ⟨[Event.warn c.cmd], c.cmd,
              List.take c.data_bytes [c.data0], ?_, ?_⟩
            · rw [runCmds_cons]
              simp [hnd, hdb, hc, hb]
            · simp [writeCount]
          · have hc' : (u && is_cmd_overwritten d lc c) = false :=
              Bool.eq_false_iff.mpr hc
            refine ⟨[], c.cmd, List.take c.data_bytes [c.data0], ?_, ?_⟩
            · rw [runCmds_cons]
              simp [hnd, hdb, hc', hb]
            · simp [writeCount]
        | succ k' =>
          have hbn : 0 ≤ bus n := hok n (le_refl n) (by omega)
          have hb : ¬ bus n < 0 := not_lt.mpr hbn
          have hk' : k' + 1 ≤ writesOf rest := by
            have : writesOf (c :: rest) = writesOf rest + 1 := by
              simp [writesOf, hnd, hdb]
            omega
          have hok' : ∀ i, n + 1 ≤ i → i < n + 1 + k' → 0 ≤ bus i := by
            intro i h1 h2
            exact hok i (by omega) (by omega)
          have hfail' : bus (n + 1 + k') < 0 := by
            have e : n + 1 + k' = n + (k' + 1) := by omega
            rw [e]
            exact hfail
          obtain ⟨t₀, cw, pw, heq, hcnt⟩ :=
            ih (if c.cmd = JD9365_CMD_PAGE then
                decide (c.data0 = JD9365_PAGE_USER) else u) (n + 1) k'
              hk' hok' hfail'
          have e : n + 1 + k' = n + (k' + 1) := by omega
          rw [e] at heq
          by_cases hc : (u && is_cmd_overwritten d lc c) = true
          · refine ⟨Event.warn c.cmd ::
                Event.write c.cmd (List.take c.data_bytes [c.data0]) :: t₀,
              cw, pw, ?_, ?_⟩
            · rw [runCmds_cons]
              simp [hnd, hdb, hc, hb, heq]
            · rw [List.cons_append, List.cons_append, writeCount_cons_warn,
                writeCount_cons_write]
              omega
          · have hc' : (u && is_cmd_overwritten d lc c) = false :=
              Bool.eq_false_iff.mpr hc
            refine ⟨Event.write c.cmd (List.take c.data_bytes [c.data0]) :: t₀,
              cw, pw, ?_, ?_⟩
            · rw [runCmds_cons]
              simp [hnd, hdb, hc', hb, heq]
            · rw [List.cons_append, writeCount_cons_write]
              omega

/-- Claim C3.  First conjunct: a transport failure on the write attempt
with 0-based index `k` of a replay (the claim's N-th write, N = k + 1)
makes `lf_panel_set_init_cmds` issue exactly N write attempts — the
trace ends at the failing write, so no later write and no later delay
directive happens — and return the transport's error code unchanged.
Second conjunct: in `lf_panel_unprepare`, a failure of "display off" or
of "enter sleep mode" returns that error with the panel state (in
particular `prepared = true`) unchanged and without touching the reset
GPIO. -/
theorem C3_failure_aborts :
    (∀ (bus : Bus) (d : lf_panel_data) (lc : Nat) (k : Nat),
      laneEncode d.lanes = some lc →
      k < 4 + writesOf d.init_cmds →
      (∀ i, i < k → 0 ≤ bus i) →
      bus k < 0 →
      ∃ t₀ cw pw,
        lf_panel_set_init_cmds bus d =
          (t₀ ++ [Event.write cw pw], k + 1, Except.error (bus k)) ∧
        writeCount (t₀ ++ [Event.write cw pw]) = k + 1) ∧
    (∀ (bus : Bus) (p : lf_panel), p.prepared = true →
      (bus 0 < 0 →
        lf_panel_unprepare bus p =
          ([Event.write MIPI_DCS_SET_DISPLAY_OFF []], p, bus 0)) ∧
      (bus 0 = 0 → bus 1 < 0 →
        lf_panel_unprepare bus p =
          ([Event.write MIPI_DCS_SET_DISPLAY_OFF [],
            Event.write MIPI_DCS_ENTER_SLEEP_MODE []], p, bus 1))) := by
  constructor
  · intro bus d lc k hlc hk hok hfail
    rcases k with _ | k
    · refine ⟨[], JD9365_CMD_PAGE, [JD9365_PAGE_USER], ?_, by simp [writeCount]⟩
      rw [lf_panel_set_init_cmds, hlc]
      simp [hfail]
    rcases k with _ | k
    · have h0 : ¬ bus 0 < 0 := not_lt.mpr (hok 0 (by omega))
      refine ⟨[Event.write JD9365_CMD_PAGE [JD9365_PAGE_USER]],
        MIPI_DCS_SET_ADDRESS_MODE, [d.madctl_val], ?_, by simp [writeCount]⟩
      rw [lf_panel_set_init_cmds, hlc]
      simp [h0, hfail]
    rcases k with _ | k
    · have h0 : ¬ bus 0 < 0 := not_lt.mpr (hok 0 (by omega))
      have h1 : ¬ bus 1 < 0 := not_lt.mpr (hok 1 (by omega))
      refine ⟨[Event.write JD9365_CMD_PAGE [JD9365_PAGE_USER],
          Event.write MIPI_DCS_SET_ADDRESS_MODE [d.madctl_val]],
        MIPI_DCS_SET_PIXEL_FORMAT, [d.colmod_val], ?_, by simp [writeCount]⟩
      rw [lf_panel_set_init_cmds, hlc]
      simp [h0, h1, hfail]
    rcases k with _ | k
    · have h0 : ¬ bus 0 < 0 := not_lt.mpr (hok 0 (by omega))
      have h1 : ¬ bus 1 < 0 := not_lt.mpr (hok 1 (by omega))
      have h2 : ¬ bus 2 < 0 := not_lt.mpr (hok 2 (by omega))
      refine ⟨[Event.write JD9365_CMD_PAGE [JD9365_PAGE_USER],
          Event.write MIPI_DCS_SET_ADDRESS_MODE [d.madctl_val],
          Event.write MIPI_DCS_SET_PIXEL_FORMAT [d.colmod_val]],
        JD9365_CMD_DSI_INIT0, [lc], ?_, by simp [writeCount]⟩
      rw [lf_panel_set_init_cmds, hlc]
      simp [h0, h1, h2, hfail]
    · have h0 : ¬ bus 0 < 0 := not_lt.mpr (hok 0 (by omega))
      have h1 : ¬ bus 1 < 0 := not_lt.mpr (hok 1 (by omega))
      have h2 : ¬ bus 2 < 0 := not_lt.mpr (hok 2 (by omega))
      have h3 : ¬ bus 3 < 0 := not_lt.mpr (hok 3 (by omega))
      have hkw : k + 1 ≤ writesOf d.init_cmds := by
        simp [writesOf] at hk ⊢
        omega
      have hok4 : ∀ i, 4 ≤ i → i < 4 + k → 0 ≤ bus i := by
        intro i hi1 hi2
        exact hok i (by omega)
      have hfail4 : bus (4 + k) < 0 := by
        have e : 4 + k = k + 1 + 1 + 1 + 1 := by omega
        rw [e]
        exact hfail
      obtain ⟨t₀, cw, pw, heq, hcnt⟩ :=
        runCmds_fail bus d lc d.init_cmds true 4 k hkw hok4 hfail4
      refine ⟨Event.write JD9365_CMD_PAGE [JD9365_PAGE_USER] ::
          Event.write MIPI_DCS_SET_ADDRESS_MODE [d.madctl_val] ::
          Event.write MIPI_DCS_SET_PIXEL_FORMAT [d.colmod_val] ::
          Event.write JD9365_CMD_DSI_INIT0 [lc] :: t₀, cw, pw, ?_, ?_⟩
      · rw [lf_panel_set_init_cmds, hlc]
        have e : 4 + k = k + 1 + 1 + 1 + 1 := by omega
        rw [e] at heq
        simp [h0, h1, h2, h3, heq]
      · simp only [List.cons_append, writeCount_cons_write]
        omega
  · intro bus p hp
    constructor
    · intro hb
      rw [lf_panel_unprepare]
      simp [hp, ne_of_lt hb]
    · intro hb0 hb1
      rw [lf_panel_unprepare]
      simp [hp, hb0, ne_of_lt hb1]

/-- Witness for C3: with a transport failing exactly on attempt index 4,
a 1-lane descriptor whose table holds one register write aborts after
exactly 5 write attempts returning -5; and `unprepare` on a prepared
panel whose "display off" fails with -5 returns -5 with `prepared`
still true and no GPIO event. -/
theorem C3_witness :
    (∃ t₀ cw pw,
      lf_panel_set_init_cmds (failBus 4)
          ⟨LF101_8001280_AMA_4LANE_mode, 1, 0x00, 0x77, [⟨0xE1, 1, 0x93⟩]⟩ =
        (t₀ ++ [Event.write cw pw], 5, Except.error (-5)) ∧
      writeCount (t₀ ++ [Event.write cw pw]) = 5) ∧
    lf_panel_unprepare (failBus 0) ⟨true, false⟩ =
      ([Event.write MIPI_DCS_SET_DISPLAY_OFF []], ⟨true, false⟩, -5) := by
  constructor
  · have h := C3_failure_aborts.1 (failBus 4)
      ⟨LF101_8001280_AMA_4LANE_mode, 1, 0x00, 0x77, [⟨0xE1, 1, 0x93⟩]⟩
      0x00 4 rfl (by decide)
      (by intro i hi; simp only [failBus]; rw [if_neg (by omega)])
      (by simp [failBus])
    simpa [failBus] using h
  · have h := (C3_failure_aborts.2 (failBus 0) ⟨true, false⟩ rfl).1
      (by simp [failBus])
    simpa [failBus] using h

/-! ## C4: the prepare sequence -/

/-- Claim C4.  On a panel that is not prepared, `lf_panel_prepare`
produces exactly: reset high, 5 ms, reset low, 10 ms, reset high,
120 ms, the full interpreter replay, "exit sleep mode", "display on",
and sets `prepared`, returning 0 (second conjunct, for a replay that
succeeds and both DCS commands succeeding).  A replay failure returns
that error right after the replay trace with the state unchanged (third
conjunct); a failure of either DCS command likewise (fourth and fifth
conjuncts); in every failing case `prepared` stays false (sixth
conjunct).  On an already prepared panel it returns 0 with no GPIO
event and no bus traffic (first conjunct). -/
theorem C4_prepare_sequence :
    (∀ (bus : Bus) (d : lf_panel_data) (p : lf_panel),
      p.prepared = true → lf_panel_prepare bus d p = ([], p, 0)) ∧
    (∀ (bus : Bus) (d : lf_panel_data) (p : lf_panel) (t : List Event)
        (n : Nat),
      p.prepared = false →
      lf_panel_set_init_cmds bus d = (t, n, Except.ok ()) →
      bus n = 0 → bus (n + 1) = 0 →
      lf_panel_prepare bus d p =
        (resetPulse ++ t ++ [Event.write MIPI_DCS_EXIT_SLEEP_MODE [],
          Event.write MIPI_DCS_SET_DISPLAY_ON []],
         { p with prepared := true }, 0)) ∧
    (∀ (bus : Bus) (d : lf_panel_data) (p : lf_panel) (t : List Event)
        (n : Nat) (e : Int),
      p.prepared = false →
      lf_panel_set_init_cmds bus d = (t, n, Except.error e) →
      lf_panel_prepare bus d p = (resetPulse ++ t, p, e)) ∧
    (∀ (bus : Bus) (d : lf_panel_data) (p : lf_panel) (t : List Event)
        (n : Nat),
      p.prepared = false →
      lf_panel_set_init_cmds bus d = (t, n, Except.ok ()) →
      bus n ≠ 0 →
      lf_panel_prepare bus d p =
        (resetPulse ++ t ++ [Event.write MIPI_DCS_EXIT_SLEEP_MODE []],
         p, bus n)) ∧
    (∀ (bus : Bus) (d : lf_panel_data) (p : lf_panel) (t : List Event)
        (n : Nat),
      p.prepared = false →
      lf_panel_set_init_cmds bus d = (t, n, Except.ok ()) →
      bus n = 0 → bus (n + 1) ≠ 0 →
      lf_panel_prepare bus d p =
        (resetPulse ++ t ++ [Event.write MIPI_DCS_EXIT_SLEEP_MODE [],
          Event.write MIPI_DCS_SET_DISPLAY_ON []],
         p, bus (n + 1))) ∧
    (∀ (bus : Bus) (d : lf_panel_data) (p : lf_panel),
      p.prepared = false →
      (lf_panel_prepare bus d p).2.2 ≠ 0 →
      (lf_panel_prepare bus d p).2.1 = p) := by
  refine ⟨?_, ?_, ?_, ?_, ?_, ?_⟩
  · intro bus d p hp
    simp [lf_panel_prepare, hp]
  · intro bus d p t n hp hset hb0 hb1
    simp [lf_panel_prepare, hp, hset, hb0, hb1]
  · intro bus d p t n e hp hset
    simp [lf_panel_prepare, hp, hset]
  · intro bus d p t n hp hset hb
    simp [lf_panel_prepare, hp, hset, hb]
  · intro bus d p t n hp hset hb0 hb1
    simp [lf_panel_prepare, hp, hset, hb0, hb1]
  · intro bus d p hp hr
    rcases hset : lf_panel_set_init_cmds bus d with ⟨t, n, r⟩
    cases r with
    | error e => simp [lf_panel_prepare, hp, hset]
    | ok _ =>
      by_cases hb0 : bus n = 0
      · by_cases hb1 : bus (n + 1) = 0
        · exact absurd (by simp [lf_panel_prepare, hp, hset, hb0, hb1])
            hr
        · simp [lf_panel_prepare, hp, hset, hb0, hb1]
      · simp [lf_panel_prepare, hp, hset, hb0]

/-- Witness for C4 at concrete inputs: an unprepared panel with a
1-lane descriptor whose table is a single register write, over a
fault-free transport, runs the reset pulse, the five-write replay, exit
sleep mode and display on, and becomes prepared; an already prepared
panel is untouched. -/
theorem C4_witness :
    lf_panel_prepare zeroBus
        ⟨LF101_8001280_AMA_4LANE_mode, 1, 0x00, 0x77, [⟨0xE1, 1, 0x93⟩]⟩
        ⟨false, false⟩ =
      (resetPulse ++
        [Event.write JD9365_CMD_PAGE [JD9365_PAGE_USER],
         Event.write MIPI_DCS_SET_ADDRESS_MODE [0x00],
         Event.write MIPI_DCS_SET_PIXEL_FORMAT [0x77],
         Event.write JD9365_CMD_DSI_INIT0 [0x00],
         Event.write 0xE1 [0x93]] ++
        [Event.write MIPI_DCS_EXIT_SLEEP_MODE [],
         Event.write MIPI_DCS_SET_DISPLAY_ON []],
       ⟨true, false⟩, 0) ∧
    lf_panel_prepare zeroBus LF101_8001280_AMA_4LANE_data ⟨true, true⟩ =
      ([], ⟨true, true⟩, 0) := by
  constructor
  · have h := C4_prepare_sequence.2.1 zeroBus
      ⟨LF101_8001280_AMA_4LANE_mode, 1, 0x00, 0x77, [⟨0xE1, 1, 0x93⟩]⟩
      ⟨false, false⟩
      [Event.write JD9365_CMD_PAGE [JD9365_PAGE_USER],
       Event.write MIPI_DCS_SET_ADDRESS_MODE [0x00],
       Event.write MIPI_DCS_SET_PIXEL_FORMAT [0x77],
       Event.write JD9365_CMD_DSI_INIT0 [0x00],
       Event.write 0xE1 [0x93]] 5 rfl rfl rfl rfl
    exact h
  · exact C4_prepare_sequence.1 zeroBus LF101_8001280_AMA_4LANE_data
      ⟨true, true⟩ rfl

/-! ## C7: lifecycle operations are no-ops when the guard state holds -/

/-- Claim C7.  Each lifecycle operation invoked when its guard state
already holds returns 0 with no event (no bus transaction, no GPIO
change) and no state change: `enable` when enabled, `unprepare` when
not prepared, `prepare` when prepared, `disable` when not enabled. -/
theorem C7_guarded_noops :
    ∀ (bus : Bus) (d : lf_panel_data) (p : lf_panel),
      (p.enabled = true → lf_panel_enable p = ([], p, 0)) ∧
      (p.prepared = false → lf_panel_unprepare bus p = ([], p, 0)) ∧
      (p.prepared = true → lf_panel_prepare bus d p = ([], p, 0)) ∧
      (p.enabled = false → lf_panel_disable p = ([], p, 0)) := by
  intro bus d p
  refine ⟨?_, ?_, ?_, ?_⟩
  · intro h; simp [lf_panel_enable, h]
  · intro h; simp [lf_panel_unprepare, h]
  · intro h; simp [lf_panel_prepare, h]
  · intro h; simp [lf_panel_disable, h]

/-- Witness for C7: a second `enable` on an enabled panel, an
`unprepare` on an unprepared panel, a `prepare` on a prepared panel and
a `disable` on a disabled panel are all silent successes. -/
theorem C7_witness :
    lf_panel_enable ⟨true, true⟩ = ([], ⟨true, true⟩, 0) ∧
    lf_panel_unprepare zeroBus ⟨false, false⟩ = ([], ⟨false, false⟩, 0) ∧
    lf_panel_prepare zeroBus LF101_8001280_AMA_4LANE_data ⟨true, false⟩ =
      ([], ⟨true, false⟩, 0) ∧
    lf_panel_disable ⟨true, false⟩ = ([], ⟨true, false⟩, 0) := by
  have h := C7_guarded_noops zeroBus LF101_8001280_AMA_4LANE_data
  exact ⟨(h ⟨true, true⟩).1 rfl, (h ⟨false, false⟩).2.1 rfl,
    (h ⟨true, false⟩).2.2.1 rfl, (h ⟨true, false⟩).2.2.2 rfl⟩

/-! ## C5: the lifecycle invariant -/

theorem prepare_state_cases (bus : Bus) (d : lf_panel_data) (p : lf_panel) :
    (lf_panel_prepare bus d p).2.1 = p ∨
    (lf_panel_prepare bus d p).2.1 = { p with prepared := true } := by
  rcases hset : lf_panel_set_init_cmds bus d with ⟨t, n, r⟩
  cases hp : p.prepared
  · cases r with
    | error e => left; simp [lf_panel_prepare, hp, hset]
    | ok _ =>
      by_cases hb0 : bus n = 0
      · by_cases hb1 : bus (n + 1) = 0
        · right; simp [lf_panel_prepare, hp, hset, hb0, hb1]
        · left; simp [lf_panel_prepare, hp, hset, hb0, hb1]
      · left; simp [lf_panel_prepare, hp, hset, hb0]
  · left; simp [lf_panel_prepare, hp]

theorem unprepare_state_cases (bus : Bus) (p : lf_panel) :
    (lf_panel_unprepare bus p).2.1 = p ∨
    (lf_panel_unprepare bus p).2.1 = { p with prepared := false } := by
  cases hp : p.prepared
  · left; simp [lf_panel_unprepare, hp]
  · by_cases hb0 : bus 0 = 0
    · by_cases hb1 : bus 1 = 0
      · right; simp [lf_panel_unprepare, hp, hb0, hb1]
      · left; simp [lf_panel_unprepare, hp, hb0, hb1]
    · left; simp [lf_panel_unprepare, hp, hb0]

theorem enable_state_cases (p : lf_panel) :
    (lf_panel_enable p).2.1 = p ∨
    (lf_panel_enable p).2.1 = { p with enabled := true } := by
  cases hp : p.enabled
  · right; simp [lf_panel_enable, hp]
  · left; simp [lf_panel_enable, hp]

theorem disable_state_cases (p : lf_panel) :
    (lf_panel_disable p).2.1 = p ∨
    (lf_panel_disable p).2.1 = { p with enabled := false } := by
  cases hp : p.enabled
  · left; simp [lf_panel_disable, hp]
  · right; simp [lf_panel_disable, hp]

/-- Counterexample to claim C5 as stated: the code never checks
`prepared` in `lf_panel_enable` and never checks `enabled` in
`lf_panel_unprepare`, so the sequence consisting of a single `enable()`
from the initial state — and likewise prepare, enable, unprepare —
leaves the panel with `enabled = true` and `prepared = false`,
violating `enabled ⇒ prepared`. -/
theorem C5_counterexample :
    (runSeq ⟨LF101_8001280_AMA_4LANE_mode, 1, 0x00, 0x77, []⟩
        ⟨false, false⟩ [(LifecycleOp.enable, zeroBus)]).enabled = true ∧
    (runSeq ⟨LF101_8001280_AMA_4LANE_mode, 1, 0x00, 0x77, []⟩
        ⟨false, false⟩ [(LifecycleOp.enable, zeroBus)]).prepared = false ∧
    (runSeq ⟨LF101_8001280_AMA_4LANE_mode, 1, 0x00, 0x77, []⟩
        ⟨false, false⟩
        [(LifecycleOp.prepare, zeroBus), (LifecycleOp.enable, zeroBus),
         (LifecycleOp.unprepare, zeroBus)]).enabled = true ∧
    (runSeq ⟨LF101_8001280_AMA_4LANE_mode, 1, 0x00, 0x77, []⟩
        ⟨false, false⟩
        [(LifecycleOp.prepare, zeroBus), (LifecycleOp.enable, zeroBus),
         (LifecycleOp.unprepare, zeroBus)]).prepared = false := by
  refine ⟨rfl, rfl, ?_, ?_⟩ <;> rfl

/-- Claim C5 as amended.  Starting from the initial state (both flags
false), after any sequence of the four lifecycle operations in which,
along the run, `enable()` is only invoked while `prepared` holds and
`unprepare()` only while `enabled` is false — the serialized
prepare → enable → disable → unprepare order the DRM framework
guarantees — the invariant `enabled ⇒ prepared` holds. -/
theorem C5_amended_invariant (d : lf_panel_data)
    (seq : List (LifecycleOp × Bus))
    (hleg : legalSeq d ⟨false, false⟩ seq = true) :
    (runSeq d ⟨false, false⟩ seq).enabled = true →
    (runSeq d ⟨false, false⟩ seq).prepared = true := by
  suffices h : ∀ (s : List (LifecycleOp × Bus)) (p : lf_panel),
      (p.enabled = true → p.prepared = true) → legalSeq d p s = true →
      ((runSeq d p s).enabled = true → (runSeq d p s).prepared = true) by
    exact h seq ⟨false, false⟩ (by simp) hleg
  intro s
  induction s with
  | nil => intro p hinv _; exact hinv
  | cons step rest ih =>
    rcases step with ⟨op, bus⟩
    intro p hinv hleg
    cases op with
    | prepare =>
      simp only [legalSeq, Bool.and_eq_true] at hleg
      refine ih (runOp d p (LifecycleOp.prepare, bus)) ?_ hleg.2
      rcases prepare_state_cases bus d p with h | h
      · simpa [runOp, h] using hinv
      · simp [runOp, h]
    | enable =>
      simp only [legalSeq, Bool.and_eq_true] at hleg
      refine ih (runOp d p (LifecycleOp.enable, bus)) ?_ hleg.2
      rcases enable_state_cases p with h | h
      · simpa [runOp, h] using hinv
      · simp [runOp, h, hleg.1]
    | disable =>
      simp only [legalSeq, Bool.and_eq_true] at hleg
      refine ih (runOp d p (LifecycleOp.disable, bus)) ?_ hleg.2
      rcases disable_state_cases p with h | h
      · simpa [runOp, h] using hinv
      · simp [runOp, h]
    | unprepare =>
      simp only [legalSeq, Bool.and_eq_true] at hleg
      refine ih (runOp d p (LifecycleOp.unprepare, bus)) ?_ hleg.2
      rcases unprepare_state_cases bus p with h | h
      · simpa [runOp, h] using hinv
      · have he : p.enabled = false := by simpa using hleg.1
        simp [runOp, h, he]

/-- Witness for the amended C5: the legal run prepare, enable on a
1-lane descriptor over a fault-free transport ends enabled, and the
theorem instantiated there yields `prepared`. -/
theorem C5_witness :
    legalSeq ⟨LF101_8001280_AMA_4LANE_mode, 1, 0x00, 0x77, []⟩
        ⟨false, false⟩
        [(LifecycleOp.prepare, zeroBus), (LifecycleOp.enable, zeroBus)] =
      true ∧
    ((runSeq ⟨LF101_8001280_AMA_4LANE_mode, 1, 0x00, 0x77, []⟩
        ⟨false, false⟩
        [(LifecycleOp.prepare, zeroBus), (LifecycleOp.enable, zeroBus)]
      ).enabled = true →
     (runSeq ⟨LF101_8001280_AMA_4LANE_mode, 1, 0x00, 0x77, []⟩
        ⟨false, false⟩
        [(LifecycleOp.prepare, zeroBus), (LifecycleOp.enable, zeroBus)]
      ).prepared = true) :=
  ⟨rfl, C5_amended_invariant
    ⟨LF101_8001280_AMA_4LANE_mode, 1, 0x00, 0x77, []⟩
    [(LifecycleOp.prepare, zeroBus), (LifecycleOp.enable, zeroBus)] rfl⟩

/-! ## C6: the end-to-end scenario -/

theorem runCmds_nil (bus : Bus) (d : lf_panel_data) (lc : Nat) (u : Bool)
    (n : Nat) :
    runCmds bus d lc [] u n = ([], n, Except.ok ()) :=
  rfl

/-- Counterexample to claim C6 as stated: with the scenario descriptor
and the concrete non-conflicting writes 0xE1 ← 0x93, 0xE2 ← 0x65,
0xE3 ← 0xF8, the interpreter writes every table entry (the conflict
logic only warns, it never skips), so it issues 10 bus transactions —
the 4 preamble writes plus all 6 table entries — not 7, with zero
conflict warnings. -/
theorem C6_counterexample :
    writeCount (lf_panel_set_init_cmds zeroBus
      (scenarioData ⟨0xE1, 1, 0x93⟩ ⟨0xE2, 1, 0x65⟩ ⟨0xE3, 1, 0xF8⟩)).1 =
      10 ∧
    warnCount (lf_panel_set_init_cmds zeroBus
      (scenarioData ⟨0xE1, 1, 0x93⟩ ⟨0xE2, 1, 0x65⟩ ⟨0xE3, 1, 0xF8⟩)).1 =
      0 ∧
    ¬ writeCount (lf_panel_set_init_cmds zeroBus
      (scenarioData ⟨0xE1, 1, 0x93⟩ ⟨0xE2, 1, 0x65⟩ ⟨0xE3, 1, 0xF8⟩)).1 =
      7 := by
  refine ⟨by decide, by decide, by decide⟩

/-- Claim C6 as amended.  For the scenario descriptor (4 lanes, MADCTL
0x00, COLMOD 0x77, table = page → 0x00, addr-mode → 0x00, pixel-fmt →
0x77, then three arbitrary non-conflicting register writes) over a
fault-free transport, the interpreter issues exactly the 4 preamble
writes followed by all 6 table entries — 10 bus transactions total, the
claim's figure of 7 being what the code actually exceeds because
matching table entries are still replayed — and logs zero conflict
warnings. -/
theorem C6_amended_scenario (bus : Bus) (w1 w2 w3 : LCM_init_cmd)
    (h1d : w1.cmd ≠ REGFLAG_DELAY) (h1b : w1.data_bytes = 1)
    (h1c : is_cmd_overwritten (scenarioData w1 w2 w3) JD9365_DSI_4_LANE w1 =
      false)
    (h2d : w2.cmd ≠ REGFLAG_DELAY) (h2b : w2.data_bytes = 1)
    (h2c : is_cmd_overwritten (scenarioData w1 w2 w3) JD9365_DSI_4_LANE w2 =
      false)
    (h3d : w3.cmd ≠ REGFLAG_DELAY) (h3b : w3.data_bytes = 1)
    (h3c : is_cmd_overwritten (scenarioData w1 w2 w3) JD9365_DSI_4_LANE w3 =
      false)
    (hbus : ∀ i, i < 10 → 0 ≤ bus i) :
    lf_panel_set_init_cmds bus (scenarioData w1 w2 w3) =
      ([Event.write JD9365_CMD_PAGE [JD9365_PAGE_USER],
        Event.write MIPI_DCS_SET_ADDRESS_MODE [0x00],
        Event.write MIPI_DCS_SET_PIXEL_FORMAT [0x77],
        Event.write JD9365_CMD_DSI_INIT0 [0x03],
        Event.write 0xE0 [0x00],
        Event.write 0x36 [0x00],
        Event.write 0x3A [0x77],
        Event.write w1.cmd [w1.data0],
        Event.write w2.cmd [w2.data0],
        Event.write w3.cmd [w3.data0]], 10, Except.ok ()) ∧
    writeCount (lf_panel_set_init_cmds bus (scenarioData w1 w2 w3)).1 = 10 ∧
    warnCount (lf_panel_set_init_cmds bus (scenarioData w1 w2 w3)).1 = 0 := by
  have h0 : ¬ bus 0 < 0 := not_lt.mpr (hbus 0 (by norm_num))
  have h1 : ¬ bus 1 < 0 := not_lt.mpr (hbus 1 (by norm_num))
  have h2 : ¬ bus 2 < 0 := not_lt.mpr (hbus 2 (by norm_num))
  have h3 : ¬ bus 3 < 0 := not_lt.mpr (hbus 3 (by norm_num))
  have h4 : ¬ bus 4 < 0 := not_lt.mpr (hbus 4 (by norm_num))
  have h5 : ¬ bus 5 < 0 := not_lt.mpr (hbus 5 (by norm_num))
  have h6 : ¬ bus 6 < 0 := not_lt.mpr (hbus 6 (by norm_num))
  have h7 : ¬ bus 7 < 0 := not_lt.mpr (hbus 7 (by norm_num))
  have h8 : ¬ bus 8 < 0 := not_lt.mpr (hbus 8 (by norm_num))
  have h9 : ¬ bus 9 < 0 := not_lt.mpr (hbus 9 (by norm_num))
  have h1d' : ¬ w1.cmd = 255 := by simpa [REGFLAG_DELAY] using h1d
  have h2d' : ¬ w2.cmd = 255 := by simpa [REGFLAG_DELAY] using h2d
  have h3d' : ¬ w3.cmd = 255 := by simpa [REGFLAG_DELAY] using h3d
  simp only [scenarioData, scenarioTable, JD9365_DSI_4_LANE] at h1c h2c h3c
  have hcE : is_cmd_overwritten
      ⟨LF101_8001280_AMA_4LANE_mode, 4, 0x00, 0x77,
       [⟨0xE0, 1, 0x00⟩, ⟨0x36, 1, 0x00⟩, ⟨0x3A, 1, 0x77⟩, w1, w2, w3]⟩
      0x03 ⟨0xE0, 1, 0x00⟩ = false := by
    simp [is_cmd_overwritten, MIPI_DCS_SET_ADDRESS_MODE,
      MIPI_DCS_SET_PIXEL_FORMAT, JD9365_CMD_DSI_INIT0]
  have hcM : is_cmd_overwritten
      ⟨LF101_8001280_AMA_4LANE_mode, 4, 0x00, 0x77,
       [⟨0xE0, 1, 0x00⟩, ⟨0x36, 1, 0x00⟩, ⟨0x3A, 1, 0x77⟩, w1, w2, w3]⟩
      0x03 ⟨0x36, 1, 0x00⟩ = false := by
    simp [is_cmd_overwritten, MIPI_DCS_SET_ADDRESS_MODE,
      MIPI_DCS_SET_PIXEL_FORMAT, JD9365_CMD_DSI_INIT0]
  have hcC : is_cmd_overwritten
      ⟨LF101_8001280_AMA_4LANE_mode, 4, 0x00, 0x77,
       [⟨0xE0, 1, 0x00⟩, ⟨0x36, 1, 0x00⟩, ⟨0x3A, 1, 0x77⟩, w1, w2, w3]⟩
      0x03 ⟨0x3A, 1, 0x77⟩ = false := by
    simp [is_cmd_overwritten, MIPI_DCS_SET_ADDRESS_MODE,
      MIPI_DCS_SET_PIXEL_FORMAT, JD9365_CMD_DSI_INIT0]
  have hmain : lf_panel_set_init_cmds bus (scenarioData w1 w2 w3) =
      ([Event.write JD9365_CMD_PAGE [JD9365_PAGE_USER],
        Event.write MIPI_DCS_SET_ADDRESS_MODE [0x00],
        Event.write MIPI_DCS_SET_PIXEL_FORMAT [0x77],
        Event.write JD9365_CMD_DSI_INIT0 [0x03],
        Event.write 0xE0 [0x00],
        Event.write 0x36 [0x00],
        Event.write 0x3A [0x77],
        Event.write w1.cmd [w1.data0],
        Event.write w2.cmd [w2.data0],
        Event.write w3.cmd [w3.data0]], 10, Except.ok ()) := by
    simp [lf_panel_set_init_cmds, scenarioData, scenarioTable, laneEncode,
      runCmds_cons, runCmds_nil, h0, h1, h2, h3, h4, h5, h6, h7, h8, h9,
      h1d', h1b, h1c, h2d', h2b, h2c, h3d', h3b, h3c, hcE, hcM, hcC,
      JD9365_CMD_PAGE, JD9365_PAGE_USER, JD9365_CMD_DSI_INIT0,
      JD9365_DSI_4_LANE, MIPI_DCS_SET_ADDRESS_MODE,
      MIPI_DCS_SET_PIXEL_FORMAT, REGFLAG_DELAY]
  refine ⟨hmain, ?_, ?_⟩
  · rw [hmain]
    simp [writeCount]
  · rw [hmain]
    simp [warnCount]

/-- Witness for the amended C6 at the concrete non-conflicting writes
0xE1 ← 0x93, 0xE2 ← 0x65, 0xE3 ← 0xF8 over a fault-free transport. -/
theorem C6_witness :
    lf_panel_set_init_cmds zeroBus
        (scenarioData ⟨0xE1, 1, 0x93⟩ ⟨0xE2, 1, 0x65⟩ ⟨0xE3, 1, 0xF8⟩) =
      ([Event.write JD9365_CMD_PAGE [JD9365_PAGE_USER],
        Event.write MIPI_DCS_SET_ADDRESS_MODE [0x00],
        Event.write MIPI_DCS_SET_PIXEL_FORMAT [0x77],
        Event.write JD9365_CMD_DSI_INIT0 [0x03],
        Event.write 0xE0 [0x00],
        Event.write 0x36 [0x00],
        Event.write 0x3A [0x77],
        Event.write 0xE1 [0x93],
        Event.write 0xE2 [0x65],
        Event.write 0xE3 [0xF8]], 10, Except.ok ()) := by
  have h := (C6_amended_scenario zeroBus
    ⟨0xE1, 1, 0x93⟩ ⟨0xE2, 1, 0x65⟩ ⟨0xE3, 1, 0xF8⟩
    (by decide) rfl (by decide) (by decide) rfl (by decide)
    (by decide) rfl (by decide)
    (fun i _ => by simp [zeroBus])).1
  exact h

/-! ## C9 and C10: mode reporting -/

/-- Claim C9.  Every call to `lf_panel_get_modes` on which mode
duplication succeeds appends exactly one mode — a value copy of the
descriptor's single timing mode, so the caller owns it independently —
to the connector's probed list, sets the connector's physical
width/height from that mode, returns 1, and leaves the panel state
untouched. -/
theorem C9_get_modes (d : lf_panel_data) (p : lf_panel)
    (conn : drm_connector) :
    lf_panel_get_modes true d p conn =
      Except.ok (p,
        ⟨conn.probed_modes ++ [d.mode], d.mode.width_mm, d.mode.height_mm⟩,
        1) :=
  rfl

/-- Claim C10, evaluated at the failing input.  When `drm_mode_duplicate`
fails (returns NULL), `lf_panel_get_modes` does NOT terminate safely: the
source's error branch lacks a return, so execution falls through into
`drm_mode_set_name(mode)`, `drm_mode_probed_add(connector, mode)` and
`mode->width_mm` with `mode == NULL`, modelled as the `Except.error ()`
outcome (a NULL-pointer dereference), contradicting the claim. -/
theorem C10_null_mode_dereference (d : lf_panel_data) (p : lf_panel)
    (conn : drm_connector) :
    lf_panel_get_modes false d p conn = Except.error () :=
  rfl

end LFPanel
